import Mathlib

/-!
Shallow embedding of the fingerprint / similarity / persistent-store core of
`image_input.py` (class `ImageImportProcessor`), together with theorems that
settle the specification claims about it.

Conventions of the embedding:
* Python strings are `String`; where the code iterates characters we work on
  `String.toList`.
* Python floats are modelled as exact rationals `ℚ` (the similarity formula
  is pure field arithmetic on small integers).
* The fingerprint database `self.fingerprint_database` (a Python dict, which
  preserves insertion order) is an association list `Db`; the functions that
  read and mutate it mirror dict lookup, insertion (new keys append at the
  end) and in-place update of a present key.
* External collaborators (hashlib.md5, the three imagehash algorithms, JSON
  serialization, the wall clock) are parameters of the definitions: the code
  under analysis only ever treats their results as opaque values.
* Filesystem effects are explicit state: durable file content is passed in
  and returned, and fallible I/O steps carry an injected outcome, mirroring
  exactly which Python statement can raise and what the handler does.
-/

/- ------------------------------------------------------------------ -/
/- Similarity scoring: `calculate_fingerprint_similarity` (lines 154-170) -/
/- ------------------------------------------------------------------ -/

/-- Python `fp.split('_')` on the list of characters: always returns at least
one (possibly empty) part; parts are separated by `'_'`. -/
def splitParts : List Char → List (List Char)
  | [] => [[]]
  | c :: rest =>
    if c = '_' then [] :: splitParts rest
    else
      match splitParts rest with
      | [] => [[c]]
      | p :: ps => (c :: p) :: ps

/-- Python `sum(c1 != c2 for c1, c2 in zip(p1, p2))`: the number of positions
where the two components differ, over the zip-truncated common prefix. -/
def hammingDistance : List Char → List Char → Nat
  | a :: as, b :: bs => (if a = b then 0 else 1) + hammingDistance as bs
  | _, _ => 0

/-- One iteration of the loop body in `calculate_fingerprint_similarity`:
`(1 - distance / max_len) * 100`.  Returns `none` exactly when Python raises
`ZeroDivisionError`, i.e. when `max(len(p1), len(p2)) == 0`. -/
def componentSimilarity (p q : List Char) : Option ℚ :=
  if max p.length q.length = 0 then none
  else some ((1 - (hammingDistance p q : ℚ) / (max p.length q.length : ℚ)) * 100)

/-- The whole `for p1, p2 in zip(parts1, parts2)` loop: the list of
per-component similarity percentages, or `none` if any iteration raises
(the `except` handler then returns 0). -/
def allComponentSims : List (List Char) → List (List Char) → Option (List ℚ)
  | p :: ps, q :: qs =>
    match componentSimilarity p q, allComponentSims ps qs with
    | some s, some rest => some (s :: rest)
    | _, _ => none
  | _, _ => some []

/-- `calculate_fingerprint_similarity(fp1, fp2)` (lines 154-170): splits both
fingerprints on `'_'`, averages the per-component similarity percentages,
and returns 0 if anything in the `try` block raises. -/
def calculate_fingerprint_similarity (fp1 fp2 : String) : ℚ :=
  match allComponentSims (splitParts fp1.toList) (splitParts fp2.toList) with
  | none => 0
  | some sims => sims.sum / (sims.length : ℚ)

/- ------------------------------------------------------------------ -/
/- Data model: the fingerprint database (spec section 3)               -/
/- ------------------------------------------------------------------ -/

/-- One element of a record's `locations` list (lines 280-285). -/
structure LocationEntry where
  path : String
  filename : String
  timestamp : String
  size : Nat
deriving Repr, DecidableEq

/-- One value of `self.fingerprint_database` (lines 271-277). -/
structure FingerprintRecord where
  fingerprint : String
  original_filename : String
  first_seen : String
  locations : List LocationEntry
  count : Nat
deriving Repr, DecidableEq

/-- `self.fingerprint_database`: a Python dict from 16-hex-char id to record;
modelled as an insertion-ordered association list (Python dicts preserve
insertion order, which is the iteration order of `find_similar_images`). -/
abbrev Db := List (String × FingerprintRecord)

/-- Dict lookup `db[k]` / `k in db` (first — and in reachable states only —
binding of the key). -/
def dbFind (db : Db) (k : String) : Option FingerprintRecord :=
  match db with
  | [] => none
  | kv :: rest => if kv.1 = k then some kv.2 else dbFind rest k

/-- In-place mutation `db[k]['locations'].append(...)` etc.: rewrite the
binding of `k`, keeping the dict order. -/
def dbUpdate (db : Db) (k : String) (f : FingerprintRecord → FingerprintRecord) : Db :=
  match db with
  | [] => []
  | kv :: rest => if kv.1 = k then (kv.1, f kv.2) :: rest else kv :: dbUpdate rest k f

/- ------------------------------------------------------------------ -/
/- `find_similar_images` (lines 172-188)                               -/
/- ------------------------------------------------------------------ -/

/-- One element of the list built by `find_similar_images`:
`{'id': fp_id, 'similarity': similarity, 'data': fp_data}`. -/
structure SimilarMatch where
  id : String
  similarity : ℚ
  data : FingerprintRecord
deriving Repr, DecidableEq

/-- The loop of `find_similar_images` before the sort: walk the database in
dict (insertion) order and keep every record whose similarity to the query
fingerprint reaches the threshold. -/
def candidate_matches (db : Db) (fingerprint : String) (threshold : ℚ) :
    List SimilarMatch :=
  db.filterMap fun kv =>
    let s := calculate_fingerprint_similarity fingerprint kv.2.fingerprint
    if threshold ≤ s then some ⟨kv.1, s, kv.2⟩ else none

/-- Stable insertion into a descending-by-similarity list: skip every element
with strictly larger similarity, then place the new element before the rest.
An element inserted this way precedes all equal-similarity elements already
present, which is exactly the order produced by Python's stable
`list.sort(key=..., reverse=True)` when the inserted element came earlier in
the original list. -/
def insertDescBySim (x : SimilarMatch) : List SimilarMatch → List SimilarMatch
  | [] => [x]
  | y :: ys => if x.similarity < y.similarity then y :: insertDescBySim x ys
               else x :: y :: ys

/-- Stable sort, descending by similarity: the unique stable descending
reordering, hence extensionally the result of
`similar_images.sort(key=lambda x: x['similarity'], reverse=True)`. -/
def sortDescBySim : List SimilarMatch → List SimilarMatch
  | [] => []
  | x :: xs => insertDescBySim x (sortDescBySim xs)

/-- `find_similar_images(fingerprint, threshold=90)` (lines 172-188): collect
the matches at or above the threshold, then sort by similarity descending
(stable). -/
def find_similar_images (db : Db) (fingerprint : String) (threshold : ℚ) :
    List SimilarMatch :=
  sortDescBySim (candidate_matches db fingerprint threshold)

/- ------------------------------------------------------------------ -/
/- `generate_perceptual_hash` (lines 134-152)                          -/
/- ------------------------------------------------------------------ -/

/-- The decoded pixel buffer handed to `generate_perceptual_hash`, after the
dtype rescaling step: a nested list of 8-bit pixel rows as numpy sees it. -/
structure PixelBuffer where
  rows : List (List Nat)
deriving Repr, DecidableEq

/-- Whether `PIL.Image.fromarray` accepts the buffer: it raises on an empty
or non-rectangular (object-dtype) array, the failure modes of the `try`
block of `generate_perceptual_hash`. -/
def bufferNormalizable (buf : PixelBuffer) : Bool :=
  match buf.rows with
  | [] => false
  | r :: rs => decide (r.length ≠ 0) && rs.all fun row => decide (row.length = r.length)

/-- `generate_perceptual_hash(image_array)` (lines 134-152), parameterized by
the three external `imagehash` algorithms.  On success it returns the
composite `f"{ahash}_{phash}_{dhash}"`; if the buffer cannot be normalized
the exception is caught, printed, and the function returns `None` — modelled
as `none`. -/
def generate_perceptual_hash (ahash phash dhash : PixelBuffer → String)
    (buf : PixelBuffer) : Option String :=
  if bufferNormalizable buf then
    some (ahash buf ++ ("_") ++ phash buf ++ ("_") ++ dhash buf)
  else none

/- ------------------------------------------------------------------ -/
/- `add_to_fingerprint_database` (lines 266-289) and persistence        -/
/- ------------------------------------------------------------------ -/

/-- The per-call arguments of `add_to_fingerprint_database`: the fingerprint
plus the fields of `image_info` it reads, with the `datetime.now()` reading
made explicit. -/
structure AddArgs where
  fingerprint : String
  filename : String
  path : String
  file_size : Nat
  now : String
deriving Repr, DecidableEq

/-- The dict appended to `locations` (lines 280-285). -/
def locationOf (a : AddArgs) : LocationEntry :=
  ⟨a.path, a.filename, a.now, a.file_size⟩

/-- The in-memory effect of `add_to_fingerprint_database` (lines 266-289),
parameterized by the external digest `hashlib.md5(...).hexdigest()[:16]`:
if the id is absent, first bind it to a fresh record with `locations: []`
and `count: 0`; then unconditionally append one location entry and increment
the count. -/
def add_db (md5_16 : String → String) (db : Db) (a : AddArgs) : Db :=
  let fp_id := md5_16 a.fingerprint
  let db1 : Db :=
    match dbFind db fp_id with
    | some _ => db
    | none => db ++ [(fp_id, ⟨a.fingerprint, a.filename, a.now, [], 0⟩)]
  dbUpdate db1 fp_id fun r =>
    { r with locations := r.locations ++ [locationOf a], count := r.count + 1 }

/-- Injected outcomes of the three fallible I/O steps of
`save_fingerprint_database` (lines 291-303): `os.makedirs`, `open(..., 'w')`
and `json.dump`.  `bytesBeforeFail` is how much of the serialized text a
failing dump managed to write after `open` truncated the file. -/
structure SaveEnv where
  makedirsOk : Bool
  openOk : Bool
  dumpOk : Bool
  bytesBeforeFail : Nat
deriving Repr, DecidableEq

/-- `save_fingerprint_database()` (lines 291-303) acting on the durable
content of `self.storage_file` (`none` = file absent).  `os.makedirs` or
`open` raising leaves the file untouched; once `open(..., 'w')` has
succeeded the file is truncated, so a failing `json.dump` leaves only the
prefix it wrote.  Every exception is caught: the function returns `False`
rather than raising, `True` on success. -/
def save_fingerprint_database (env : SaveEnv) (file : Option String)
    (serialized : String) : Bool × Option String :=
  if env.makedirsOk = false then (false, file)
  else if env.openOk = false then (false, file)
  else if env.dumpOk then (true, some serialized)
  else (false, some (String.mk (serialized.toList.take env.bytesBeforeFail)))

/-- What a call to `add_to_fingerprint_database` leaves behind: the new
in-memory database, the new durable file content, the ignored boolean from
`save_fingerprint_database`, and the Python return value of the function
itself. -/
structure AddResult where
  db : Db
  durable : Option String
  save_ok : Bool
  ret : Option String
deriving Repr

/-- `add_to_fingerprint_database(fingerprint, image_info)` (lines 266-289)
with its write-through `self.save_fingerprint_database()` call, parameterized
by the external digest and JSON serializer.  The Python function body has no
`return` statement, so its value is `None`. -/
def add_to_fingerprint_database (md5_16 : String → String)
    (serialize : Db → String) (env : SaveEnv) (db : Db) (file : Option String)
    (a : AddArgs) : AddResult :=
  let db2 := add_db md5_16 db a
  let saved := save_fingerprint_database env file (serialize db2)
  ⟨db2, saved.2, saved.1, none⟩

/- ------------------------------------------------------------------ -/
/- `load_fingerprint_database` (lines 305-327)                         -/
/- ------------------------------------------------------------------ -/

/-- Content of a durable file as `json.load` sees it: either a document that
parses back to a database, or unparsable bytes. -/
inductive StoredContent where
  | parsable (db : Db)
  | junk (raw : String)

/-- The filesystem visible to `load_fingerprint_database`: content by path. -/
def FileSystem := String → Option StoredContent

/-- `load_fingerprint_database()` (lines 305-327) reading `storage_file` on a
filesystem; `renameOk` injects whether the `os.rename` in the corruption
handler itself raises (that inner failure is swallowed by `except: pass`).
Absent file: fresh empty database.  Parsable file: its contents.  Unparsable
file: the file is renamed to `storage_file + '.backup'`, and an empty
database is used; if the rename fails the file is left in place and the
empty database is still used.  No branch raises. -/
def load_fingerprint_database (fs : FileSystem) (storage_file : String)
    (renameOk : Bool) : Db × FileSystem :=
  match fs storage_file with
  | none => ([], fs)
  | some (StoredContent.parsable db) => (db, fs)
  | some (StoredContent.junk raw) =>
    if renameOk then
      ([], fun q =>
        if q = storage_file ++ (".backup") then some (StoredContent.junk raw)
        else if q = storage_file then none
        else fs q)
    else ([], fs)

/- ------------------------------------------------------------------ -/
/- `load_image_from_path` (ingest pipeline, lines 39-101)              -/
/- ------------------------------------------------------------------ -/

/-- What the store-relevant part of `load_image_from_path` produces: the
similar-image list computed before registering, and the updated store. -/
structure IngestResult where
  similar_images : List SimilarMatch
  db : Db
  durable : Option String
  save_ok : Bool
deriving Repr

/-- The fingerprint-store core of `load_image_from_path` (lines 59-98), with
image decoding and hashing abstracted into the already-generated fingerprint
inside `a`: first `find_similar_images(fingerprint, threshold=90)` on the
current database, then `add_to_fingerprint_database(fingerprint, image_info)`
— the query strictly precedes the registration. -/
def load_image_from_path (md5_16 : String → String) (serialize : Db → String)
    (env : SaveEnv) (db : Db) (file : Option String) (a : AddArgs) :
    IngestResult :=
  let similar := find_similar_images db a.fingerprint 90
  let r := add_to_fingerprint_database md5_16 serialize env db file a
  ⟨similar, r.db, r.durable, r.save_ok⟩

/-- Fold a whole session of `add_to_fingerprint_database` calls over the
in-memory database (the persistence side never feeds back into it). -/
def applyAll (md5_16 : String → String) (args : List AddArgs) (db : Db) : Db :=
  args.foldl (fun d a => add_db md5_16 d a) db

/-- Chronological order of ISO-8601 timestamp strings is their lexicographic
character order; structural so that it evaluates on literals. -/
def charListEarlier : List Char → List Char → Bool
  | [], [] => false
  | [], _ :: _ => true
  | _ :: _, [] => false
  | a :: as, b :: bs => if a < b then true else if b < a then false
                        else charListEarlier as bs

/-- Strict "earlier than" on ISO-8601 timestamps as stored in `first_seen`. -/
def isoEarlier (s t : String) : Bool := charListEarlier s.toList t.toList

/- ------------------------------------------------------------------ -/
/- Lemmas about the similarity score                                   -/
/- ------------------------------------------------------------------ -/

theorem hammingDistance_comm (p q : List Char) :
    hammingDistance p q = hammingDistance q p := by
  induction p generalizing q with
  | nil => cases q <;> rfl
  | cons a as ih =>
    cases q with
    | nil => rfl
    | cons b bs =>
      simp only [hammingDistance, ih]
      by_cases h : a = b
      · simp [h]
      · simp only [if_neg h, if_neg (Ne.symm h)]

theorem componentSimilarity_comm (p q : List Char) :
    componentSimilarity p q = componentSimilarity q p := by
  unfold componentSimilarity
  rw [hammingDistance_comm, Nat.max_comm p.length q.length,
    max_comm ((p.length : ℚ)) ((q.length : ℚ))]

theorem allComponentSims_comm (ps qs : List (List Char)) :
    allComponentSims ps qs = allComponentSims qs ps := by
  induction ps generalizing qs with
  | nil => cases qs <;> rfl
  | cons p ps ih =>
    cases qs with
    | nil => rfl
    | cons q qs => simp only [allComponentSims, ih, componentSimilarity_comm]

theorem calculate_fingerprint_similarity_comm (fp1 fp2 : String) :
    calculate_fingerprint_similarity fp1 fp2
      = calculate_fingerprint_similarity fp2 fp1 := by
  unfold calculate_fingerprint_similarity
  rw [allComponentSims_comm]

theorem hammingDistance_self (p : List Char) : hammingDistance p p = 0 := by
  induction p with
  | nil => rfl
  | cons a as ih => simp [hammingDistance, ih]

theorem componentSimilarity_self (p : List Char) (hp : p ≠ []) :
    componentSimilarity p p = some 100 := by
  have hlen : p.length ≠ 0 := fun h => hp (List.length_eq_zero.mp h)
  unfold componentSimilarity
  rw [hammingDistance_self]
  simp [Nat.max_self, hlen]

theorem allComponentSims_self (ps : List (List Char))
    (h : ∀ p ∈ ps, p ≠ []) :
    allComponentSims ps ps = some (List.replicate ps.length 100) := by
  induction ps with
  | nil => rfl
  | cons p rest ih =>
    have hp : p ≠ [] := h p (List.mem_cons_self _ _)
    have hrest : ∀ q ∈ rest, q ≠ [] := fun q hq => h q (List.mem_cons_of_mem _ hq)
    simp only [allComponentSims, componentSimilarity_self p hp, ih hrest,
      List.length_cons, List.replicate_succ]

theorem splitParts_ne_nil (l : List Char) : splitParts l ≠ [] := by
  cases l with
  | nil => simp [splitParts]
  | cons c rest =>
    by_cases h : c = '_'
    · simp [splitParts, h]
    · simp only [splitParts, if_neg h]
      cases splitParts rest <;> simp

theorem calculate_fingerprint_similarity_self (fp : String)
    (h : ∀ p ∈ splitParts fp.toList, p ≠ []) :
    calculate_fingerprint_similarity fp fp = 100 := by
  unfold calculate_fingerprint_similarity
  rw [allComponentSims_self _ h]
  have hn : (splitParts fp.toList).length ≠ 0 :=
    fun hz => splitParts_ne_nil fp.toList (List.length_eq_zero.mp hz)
  have hq : ((splitParts fp.toList).length : ℚ) ≠ 0 := by exact_mod_cast hn
  simp only [List.sum_replicate, List.length_replicate, nsmul_eq_mul]
  rw [mul_comm, mul_div_assoc, div_self hq, mul_one]

/-- Claim C9: the similarity score of `calculate_fingerprint_similarity` is
symmetric on all fingerprint pairs, and on every fingerprint whose
underscore-separated components are all nonempty (in particular every
fingerprint of the store's fixed three-component shape) it is reflexive with
value 100. -/
theorem C9_similarity_symmetric_reflexive :
    (∀ fp1 fp2 : String, calculate_fingerprint_similarity fp1 fp2
        = calculate_fingerprint_similarity fp2 fp1) ∧
    (∀ fp : String, (∀ p ∈ splitParts fp.toList, p ≠ []) →
        calculate_fingerprint_similarity fp fp = 100) :=
  ⟨calculate_fingerprint_similarity_comm, calculate_fingerprint_similarity_self⟩

/-- Claim C9 witness: symmetry and reflexivity evaluated on the concrete
three-component fingerprint `aa_bb_cc`. -/
theorem C9_witness :
    calculate_fingerprint_similarity ("aa_bb_cc") ("xx_yy_zz")
      = calculate_fingerprint_similarity ("xx_yy_zz") ("aa_bb_cc") ∧
    calculate_fingerprint_similarity ("aa_bb_cc") ("aa_bb_cc") = 100 :=
  ⟨C9_similarity_symmetric_reflexive.1 _ _,
   C9_similarity_symmetric_reflexive.2 ("aa_bb_cc") (by decide)⟩

theorem hammingDistance_le (p q : List Char) :
    hammingDistance p q ≤ max p.length q.length := by
  induction p generalizing q with
  | nil => cases q <;> simp [hammingDistance]
  | cons a as ih =>
    cases q with
    | nil => simp [hammingDistance]
    | cons b bs =>
      have h := ih bs
      simp only [hammingDistance, List.length_cons, Nat.succ_max_succ]
      by_cases hab : a = b <;> simp [hab] <;> omega

theorem componentSimilarity_bounds (p q : List Char) (s : ℚ)
    (h : componentSimilarity p q = some s) : 0 ≤ s ∧ s ≤ 100 := by
  unfold componentSimilarity at h
  by_cases hm : max p.length q.length = 0
  · rw [if_pos hm] at h
    exact absurd h (by simp)
  · rw [if_neg hm, Option.some_inj] at h
    subst h
    have hmq : ((max (p.length : ℚ) (q.length : ℚ))) = ((max p.length q.length : ℕ) : ℚ) :=
      (Nat.cast_max p.length q.length).symm
    have hpos : (0 : ℚ) < ((max p.length q.length : ℕ) : ℚ) := by
      exact_mod_cast Nat.pos_of_ne_zero hm
    have hle : ((hammingDistance p q : ℚ)) ≤ ((max p.length q.length : ℕ) : ℚ) := by
      exact_mod_cast hammingDistance_le p q
    have h1 : (hammingDistance p q : ℚ) / (max (p.length : ℚ) (q.length : ℚ)) ≤ 1 := by
      rw [hmq, div_le_one hpos]; exact hle
    have h0 : (0 : ℚ) ≤ (hammingDistance p q : ℚ) / (max (p.length : ℚ) (q.length : ℚ)) := by
      rw [hmq]
      exact div_nonneg (by positivity) (le_of_lt hpos)
    constructor
    · nlinarith
    · nlinarith

theorem sum_bounds_of_mem (sims : List ℚ) (h : ∀ s ∈ sims, 0 ≤ s ∧ s ≤ 100) :
    0 ≤ sims.sum ∧ sims.sum ≤ 100 * sims.length := by
  induction sims with
  | nil => simp
  | cons s rest ih =>
    have hs := h s (List.mem_cons_self _ _)
    have hr := ih fun t ht => h t (List.mem_cons_of_mem _ ht)
    simp only [List.sum_cons, List.length_cons]
    push_cast
    constructor
    · linarith [hs.1, hr.1]
    · linarith [hs.2, hr.2]

theorem allComponentSims_mem (ps qs : List (List Char)) (sims : List ℚ)
    (h : allComponentSims ps qs = some sims) :
    ∀ s ∈ sims, ∃ p q, componentSimilarity p q = some s := by
  induction ps generalizing qs sims with
  | nil =>
    cases qs <;> (simp only [allComponentSims, Option.some_inj] at h; subst h; simp)
  | cons p ps ih =>
    cases qs with
    | nil =>
      simp only [allComponentSims, Option.some_inj] at h
      subst h; simp
    | cons q qs =>
      cases hc : componentSimilarity p q with
      | none => simp [allComponentSims, hc] at h
      | some s0 =>
        cases ha : allComponentSims ps qs with
        | none => simp [allComponentSims, hc, ha] at h
        | some rest =>
          simp only [allComponentSims, hc, ha, Option.some_inj] at h
          subst h
          intro s hs
          rcases List.mem_cons.mp hs with rfl | hmem
          · exact ⟨p, q, hc⟩
          · exact ih qs rest ha s hmem

theorem calculate_fingerprint_similarity_bounds (fp1 fp2 : String) :
    0 ≤ calculate_fingerprint_similarity fp1 fp2 ∧
    calculate_fingerprint_similarity fp1 fp2 ≤ 100 := by
  unfold calculate_fingerprint_similarity
  cases h : allComponentSims (splitParts fp1.toList) (splitParts fp2.toList) with
  | none => norm_num
  | some sims =>
    simp only []
    have hmem : ∀ s ∈ sims, 0 ≤ s ∧ s ≤ 100 := fun s hs => by
      obtain ⟨p, q, hc⟩ := allComponentSims_mem _ _ _ h s hs
      exact componentSimilarity_bounds p q s hc
    have hsum := sum_bounds_of_mem sims hmem
    by_cases hn : sims.length = 0
    · rw [List.length_eq_zero.mp hn]
      norm_num
    · have hq : (0 : ℚ) < (sims.length : ℚ) := by
        exact_mod_cast Nat.pos_of_ne_zero hn
      constructor
      · exact div_nonneg hsum.1 (le_of_lt hq)
      · rw [div_le_iff₀ hq]
        exact hsum.2

theorem allComponentSims_take (ps qs : List (List Char)) :
    allComponentSims ps qs
      = allComponentSims (ps.take qs.length) (qs.take ps.length) := by
  induction ps generalizing qs with
  | nil => cases qs <;> rfl
  | cons p ps ih =>
    cases qs with
    | nil => rfl
    | cons q qs =>
      simp only [allComponentSims, List.length_cons, List.take_succ_cons, ih]

/-- Claim C1 (amended): `calculate_fingerprint_similarity` never fails on
mismatched fingerprint shapes; for every pair — matching or not — it returns
a score in `[0, 100]`, and the per-component comparison silently truncates to
the common component count (components beyond the shorter fingerprint are
ignored), instead of raising `ShapeMismatchError`. -/
theorem C1_similarity_never_fails_and_truncates :
    (∀ fp1 fp2 : String, 0 ≤ calculate_fingerprint_similarity fp1 fp2 ∧
        calculate_fingerprint_similarity fp1 fp2 ≤ 100) ∧
    (∀ fp1 fp2 : String,
        allComponentSims (splitParts fp1.toList) (splitParts fp2.toList)
          = allComponentSims
              ((splitParts fp1.toList).take (splitParts fp2.toList).length)
              ((splitParts fp2.toList).take (splitParts fp1.toList).length)) :=
  ⟨calculate_fingerprint_similarity_bounds, fun _ _ => allComponentSims_take _ _⟩

/-- Claim C1 counterexample: the fingerprints `ab_cd` (two components) and
`ab` (one component) have differing component counts, yet the scoring
operation does not fail: it returns the perfect score 100, the second
component of the first fingerprint being silently dropped by `zip`. -/
theorem C1_counterexample_mismatched_shape_scored :
    (splitParts ("ab_cd").toList).length = 2 ∧
    (splitParts ("ab").toList).length = 1 ∧
    calculate_fingerprint_similarity ("ab_cd") ("ab") = 100 := by
  refine ⟨by decide, by decide, ?_⟩
  norm_num [calculate_fingerprint_similarity, allComponentSims, componentSimilarity,
    hammingDistance, splitParts]

/- ------------------------------------------------------------------ -/
/- Lemmas about the sort in `find_similar_images`                      -/
/- ------------------------------------------------------------------ -/

theorem mem_insertDescBySim (x y : SimilarMatch) (l : List SimilarMatch) :
    y ∈ insertDescBySim x l ↔ y = x ∨ y ∈ l := by
  induction l with
  | nil => simp [insertDescBySim]
  | cons z zs ih =>
    by_cases h : x.similarity < z.similarity
    · simp only [insertDescBySim, if_pos h, List.mem_cons, ih]
      tauto
    · simp only [insertDescBySim, if_neg h, List.mem_cons]

theorem mem_sortDescBySim (y : SimilarMatch) (l : List SimilarMatch) :
    y ∈ sortDescBySim l ↔ y ∈ l := by
  induction l with
  | nil => simp [sortDescBySim]
  | cons x xs ih =>
    simp only [sortDescBySim, mem_insertDescBySim, ih, List.mem_cons]

theorem pairwise_insertDescBySim (x : SimilarMatch) (l : List SimilarMatch)
    (h : l.Pairwise fun a b => b.similarity ≤ a.similarity) :
    (insertDescBySim x l).Pairwise fun a b => b.similarity ≤ a.similarity := by
  induction l with
  | nil => simp [insertDescBySim]
  | cons z zs ih =>
    rcases List.pairwise_cons.mp h with ⟨hz, hzs⟩
    by_cases hlt : x.similarity < z.similarity
    · simp only [insertDescBySim, if_pos hlt]
      refine List.pairwise_cons.mpr ⟨?_, ih hzs⟩
      intro w hw
      rcases (mem_insertDescBySim x w zs).mp hw with rfl | hmem
      · exact le_of_lt hlt
      · exact hz w hmem
    · simp only [insertDescBySim, if_neg hlt]
      refine List.pairwise_cons.mpr ⟨?_, h⟩
      intro w hw
      rcases List.mem_cons.mp hw with rfl | hmem
      · exact le_of_not_lt hlt
      · exact le_trans (hz w hmem) (le_of_not_lt hlt)

theorem pairwise_sortDescBySim (l : List SimilarMatch) :
    (sortDescBySim l).Pairwise fun a b => b.similarity ≤ a.similarity := by
  induction l with
  | nil => simp [sortDescBySim]
  | cons x xs ih => exact pairwise_insertDescBySim x _ ih

theorem filter_insertDescBySim (x : SimilarMatch) (l : List SimilarMatch) (v : ℚ) :
    (insertDescBySim x l).filter (fun m => decide (m.similarity = v))
      = if x.similarity = v then
          x :: l.filter (fun m => decide (m.similarity = v))
        else l.filter (fun m => decide (m.similarity = v)) := by
  induction l with
  | nil =>
    by_cases hx : x.similarity = v <;> simp [insertDescBySim, List.filter, hx]
  | cons z zs ih =>
    by_cases hlt : x.similarity < z.similarity
    · simp only [insertDescBySim, if_pos hlt]
      by_cases hx : x.similarity = v
      · have hz : ¬ z.similarity = v := by
          subst hx; exact fun hzv => absurd hlt (by rw [hzv]; exact lt_irrefl _)
        simp [List.filter_cons, hz, ih, hx]
      · simp [List.filter_cons, ih, hx]
    · simp only [insertDescBySim, if_neg hlt]
      by_cases hx : x.similarity = v <;> simp [List.filter_cons, hx]

theorem filter_sortDescBySim (l : List SimilarMatch) (v : ℚ) :
    (sortDescBySim l).filter (fun m => decide (m.similarity = v))
      = l.filter (fun m => decide (m.similarity = v)) := by
  induction l with
  | nil => rfl
  | cons x xs ih =>
    rw [sortDescBySim, filter_insertDescBySim]
    by_cases hx : x.similarity = v <;> simp [List.filter_cons, hx, ih]

theorem length_insertDescBySim (x : SimilarMatch) (l : List SimilarMatch) :
    (insertDescBySim x l).length = l.length + 1 := by
  induction l with
  | nil => rfl
  | cons z zs ih =>
    by_cases hlt : x.similarity < z.similarity
    · simp [insertDescBySim, if_pos hlt, ih]
    · simp [insertDescBySim, if_neg hlt]

theorem length_sortDescBySim (l : List SimilarMatch) :
    (sortDescBySim l).length = l.length := by
  induction l with
  | nil => rfl
  | cons x xs ih => rw [sortDescBySim, length_insertDescBySim, ih, List.length_cons]

theorem mem_candidate_matches (db : Db) (fp : String) (t : ℚ) (m : SimilarMatch)
    (h : m ∈ candidate_matches db fp t) :
    ∃ kv ∈ db, m = ⟨kv.1, calculate_fingerprint_similarity fp kv.2.fingerprint, kv.2⟩
      ∧ t ≤ m.similarity := by
  unfold candidate_matches at h
  rcases List.mem_filterMap.mp h with ⟨kv, hkv, hsome⟩
  by_cases hth : t ≤ calculate_fingerprint_similarity fp kv.2.fingerprint
  · rw [if_pos hth, Option.some_inj] at hsome
    subst hsome
    exact ⟨kv, hkv, rfl, hth⟩
  · rw [if_neg hth] at hsome
    exact absurd hsome (by simp)

/-- Claim C7 (amended): `find_similar_images` returns the matching records
ordered descending by similarity via a stable sort: the output is sorted
(each element's similarity is at least every later one's), and for every
similarity value the equal-similarity elements appear in exactly the order
the store iterates them (insertion order) — not re-ordered by first-seen
timestamp or by ID.  The output is a function of the store contents alone,
so repeated calls with no intervening mutation return the identical ordered
sequence. -/
theorem C7_find_similar_sorted_stable :
    ∀ (db : Db) (fp : String) (t : ℚ),
      ((find_similar_images db fp t).Pairwise fun a b =>
          b.similarity ≤ a.similarity) ∧
      (∀ v : ℚ, (find_similar_images db fp t).filter
            (fun m => decide (m.similarity = v))
          = (candidate_matches db fp t).filter
            (fun m => decide (m.similarity = v))) ∧
      (∀ m : SimilarMatch,
          m ∈ find_similar_images db fp t ↔ m ∈ candidate_matches db fp t) := by
  intro db fp t
  exact ⟨pairwise_sortDescBySim _,
    fun v => filter_sortDescBySim _ v,
    fun m => mem_sortDescBySim m _⟩

/-- Claim C7 counterexample: a store holding record id `b` (first seen
2024-01-01) before record id `a` (first seen 2023-01-01), both with the same
fingerprint as the query, returns both matches with equal similarity 100 in
store order `[b, a]` — the record with the earlier first-seen timestamp and
the smaller ID comes second, so ties are not broken by earliest first-seen
timestamp or by ID as the claim states. -/
theorem C7_counterexample_tie_not_broken_by_first_seen :
    find_similar_images
        [(("b"), ⟨("aa"), ("b.png"), ("2024-01-01"), [], 1⟩),
         (("a"), ⟨("aa"), ("a.png"), ("2023-01-01"), [], 1⟩)] ("aa") 90
      = [⟨("b"), 100, ⟨("aa"), ("b.png"), ("2024-01-01"), [], 1⟩⟩,
         ⟨("a"), 100, ⟨("aa"), ("a.png"), ("2023-01-01"), [], 1⟩⟩] ∧
    isoEarlier ("2023-01-01") ("2024-01-01") = true ∧
    isoEarlier ("a") ("b") = true := by
  refine ⟨?_, by decide, by decide⟩
  norm_num [find_similar_images, candidate_matches, sortDescBySim, insertDescBySim,
    List.filterMap, calculate_fingerprint_similarity, allComponentSims,
    componentSimilarity, hammingDistance, splitParts]

theorem candidate_matches_length_of_neg (db : Db) (fp : String) (t : ℚ)
    (ht : t < 0) : (candidate_matches db fp t).length = db.length := by
  induction db with
  | nil => rfl
  | cons kv rest ih =>
    have hb := (calculate_fingerprint_similarity_bounds fp kv.2.fingerprint).1
    have hpass : t ≤ calculate_fingerprint_similarity fp kv.2.fingerprint :=
      le_trans (le_of_lt ht) hb
    unfold candidate_matches at ih ⊢
    rw [List.filterMap_cons]
    simp only [if_pos hpass, List.length_cons, ih]

theorem candidate_matches_nil_of_gt (db : Db) (fp : String) (t : ℚ)
    (ht : 100 < t) : candidate_matches db fp t = [] := by
  induction db with
  | nil => rfl
  | cons kv rest ih =>
    have hb := (calculate_fingerprint_similarity_bounds fp kv.2.fingerprint).2
    have hfail : ¬ t ≤ calculate_fingerprint_similarity fp kv.2.fingerprint :=
      not_le.mpr (lt_of_le_of_lt hb ht)
    unfold candidate_matches at ih ⊢
    rw [List.filterMap_cons]
    simp only [if_neg hfail, ih]

/-- Claim C8 (amended): `find_similar_images` performs no input validation on
the threshold — a threshold below 0 or above 100 is accepted and used
directly as the cutoff, so every record matches when the threshold is
negative and no record matches when it exceeds 100; an empty store yields
the empty sequence for every threshold, in or out of range. -/
theorem C8_no_threshold_validation :
    (∀ (fp : String) (t : ℚ), find_similar_images [] fp t = []) ∧
    (∀ (db : Db) (fp : String) (t : ℚ), t < 0 →
        (find_similar_images db fp t).length = db.length) ∧
    (∀ (db : Db) (fp : String) (t : ℚ), 100 < t →
        find_similar_images db fp t = []) := by
  refine ⟨fun fp t => rfl, fun db fp t ht => ?_, fun db fp t ht => ?_⟩
  · rw [find_similar_images, length_sortDescBySim,
      candidate_matches_length_of_neg db fp t ht]
  · rw [find_similar_images, candidate_matches_nil_of_gt db fp t ht]
    rfl

/-- Claim C8 witness: on a one-record store, threshold −1 keeps the record
and threshold 101 keeps nothing; the empty store yields the empty list. -/
theorem C8_witness :
    find_similar_images [] ("aa") 90 = [] ∧
    (find_similar_images [(("k"), ⟨("aa"), ("a.png"), ("t0"), [], 1⟩)] ("aa")
        (-1)).length = 1 ∧
    find_similar_images [(("k"), ⟨("aa"), ("a.png"), ("t0"), [], 1⟩)] ("aa")
        101 = [] :=
  ⟨C8_no_threshold_validation.1 ("aa") 90,
   C8_no_threshold_validation.2.1 _ ("aa") (-1) (by norm_num),
   C8_no_threshold_validation.2.2 _ ("aa") 101 (by norm_num)⟩

/-- Claim C8 counterexample: called with the out-of-range threshold −1 the
operation does not fail with an input-validation error — it has no failure
outcome at all and, the stored record scoring 100 against the query, simply
returns it; the invalid threshold is accepted silently. -/
theorem C8_counterexample_negative_threshold_accepted :
    find_similar_images [(("k"), ⟨("aa"), ("a.png"), ("t0"), [], 1⟩)] ("aa") (-1)
      = [⟨("k"), 100, ⟨("aa"), ("a.png"), ("t0"), [], 1⟩⟩] := by
  norm_num [find_similar_images, candidate_matches, sortDescBySim, insertDescBySim,
    List.filterMap, calculate_fingerprint_similarity, allComponentSims,
    componentSimilarity, hammingDistance, splitParts]

/- ------------------------------------------------------------------ -/
/- Lemmas about the database operations                                -/
/- ------------------------------------------------------------------ -/

theorem dbFind_append_of_none (db e : Db) (k : String)
    (h : dbFind db k = none) : dbFind (db ++ e) k = dbFind e k := by
  induction db with
  | nil => rfl
  | cons kv rest ih =>
    by_cases hk : kv.1 = k
    · rw [dbFind, if_pos hk] at h
      exact absurd h (by simp)
    · rw [dbFind, if_neg hk] at h
      rw [List.cons_append, dbFind, if_neg hk]
      exact ih h

theorem dbFind_append_of_some (db e : Db) (k : String) (r : FingerprintRecord)
    (h : dbFind db k = some r) : dbFind (db ++ e) k = some r := by
  induction db with
  | nil => exact absurd h (by simp [dbFind])
  | cons kv rest ih =>
    by_cases hk : kv.1 = k
    · rw [dbFind, if_pos hk] at h
      rw [List.cons_append, dbFind, if_pos hk]
      exact h
    · rw [dbFind, if_neg hk] at h
      rw [List.cons_append, dbFind, if_neg hk]
      exact ih h

theorem dbFind_update_self (db : Db) (k : String)
    (f : FingerprintRecord → FingerprintRecord) :
    dbFind (dbUpdate db k f) k = (dbFind db k).map f := by
  induction db with
  | nil => rfl
  | cons kv rest ih =>
    by_cases hk : kv.1 = k
    · rw [dbUpdate, if_pos hk, dbFind, if_pos hk, dbFind, if_pos hk]
      rfl
    · rw [dbUpdate, if_neg hk, dbFind, if_neg hk, dbFind, if_neg hk]
      exact ih

theorem dbFind_update_other (db : Db) (k k' : String)
    (f : FingerprintRecord → FingerprintRecord) (hne : k' ≠ k) :
    dbFind (dbUpdate db k f) k' = dbFind db k' := by
  induction db with
  | nil => rfl
  | cons kv rest ih =>
    by_cases hk : kv.1 = k
    · have hk' : kv.1 ≠ k' := fun h => hne (h ▸ hk)
      rw [dbUpdate, if_pos hk]
      simp [dbFind, hk']
    · rw [dbUpdate, if_neg hk]
      by_cases hk2 : kv.1 = k'
      · rw [dbFind, if_pos hk2, dbFind, if_pos hk2]
      · rw [dbFind, if_neg hk2, dbFind, if_neg hk2]
        exact ih

theorem mem_dbUpdate (db : Db) (k : String)
    (f : FingerprintRecord → FingerprintRecord)
    (kv : String × FingerprintRecord) (h : kv ∈ dbUpdate db k f) :
    kv ∈ db ∨ ∃ kv' , kv' ∈ db ∧ kv = (kv'.1, f kv'.2) := by
  induction db with
  | nil => exact absurd h (by simp [dbUpdate])
  | cons hd rest ih =>
    by_cases hk : hd.1 = k
    · rw [dbUpdate, if_pos hk] at h
      rcases List.mem_cons.mp h with rfl | hmem
      · exact Or.inr ⟨hd, List.mem_cons_self _ _, rfl⟩
      · exact Or.inl (List.mem_cons_of_mem _ hmem)
    · rw [dbUpdate, if_neg hk] at h
      rcases List.mem_cons.mp h with rfl | hmem
      · exact Or.inl (List.mem_cons_self _ _)
      · rcases ih hmem with hin | ⟨kv', hkv', heq⟩
        · exact Or.inl (List.mem_cons_of_mem _ hin)
        · exact Or.inr ⟨kv', List.mem_cons_of_mem _ hkv', heq⟩

theorem dbFind_isSome_of_mem (db : Db) (kv : String × FingerprintRecord)
    (h : kv ∈ db) : (dbFind db kv.1).isSome := by
  induction db with
  | nil => exact absurd h (List.not_mem_nil _)
  | cons hd rest ih =>
    by_cases hk : hd.1 = kv.1
    · rw [dbFind, if_pos hk]
      rfl
    · rcases List.mem_cons.mp h with rfl | hmem
      · exact absurd rfl hk
      · rw [dbFind, if_neg hk]
        exact ih hmem

/- ------------------------------------------------------------------ -/
/- Characterization of `add_db` / `add_to_fingerprint_database`         -/
/- ------------------------------------------------------------------ -/

theorem add_db_find_self_new (md5_16 : String → String) (db : Db) (a : AddArgs)
    (h : dbFind db (md5_16 a.fingerprint) = none) :
    dbFind (add_db md5_16 db a) (md5_16 a.fingerprint)
      = some ⟨a.fingerprint, a.filename, a.now, [locationOf a], 1⟩ := by
  simp only [add_db, h]
  rw [dbFind_update_self, dbFind_append_of_none db _ _ h]
  simp [dbFind]

theorem add_db_find_self_old (md5_16 : String → String) (db : Db) (a : AddArgs)
    (r : FingerprintRecord) (h : dbFind db (md5_16 a.fingerprint) = some r) :
    dbFind (add_db md5_16 db a) (md5_16 a.fingerprint)
      = some { r with locations := r.locations ++ [locationOf a],
                      count := r.count + 1 } := by
  simp only [add_db, h]
  rw [dbFind_update_self, h]
  rfl

theorem add_db_find_other (md5_16 : String → String) (db : Db) (a : AddArgs)
    (k : String) (hne : k ≠ md5_16 a.fingerprint) :
    dbFind (add_db md5_16 db a) k = dbFind db k := by
  cases h : dbFind db (md5_16 a.fingerprint) with
  | some r =>
    simp only [add_db, h]
    rw [dbFind_update_other _ _ _ _ hne]
  | none =>
    simp only [add_db, h]
    rw [dbFind_update_other _ _ _ _ hne]
    cases hk : dbFind db k with
    | some r => exact dbFind_append_of_some db _ k r hk
    | none =>
      rw [dbFind_append_of_none db _ k hk]
      simp [dbFind, Ne.symm hne]

/-- Claim C5 (amended): `add_to_fingerprint_database` computes the record ID
deterministically from the fingerprint alone (`md5_16 fingerprint`); for a
new ID it creates a record with occurrence count 1 and a singleton location
list; for an existing ID it appends exactly one `LocationEntry` and
increments the count by 1; other records are untouched; it persists the
updated store immediately (when the write succeeds, the durable content is
the serialization of the post-call store).  However the Python function body
has no `return` statement, so the record ID is NOT returned: the caller
always receives `None`. -/
theorem C5_add_to_fingerprint_database_behaviour :
    ∀ (md5_16 : String → String) (serialize : Db → String) (env : SaveEnv)
      (db : Db) (file : Option String) (a : AddArgs),
      (add_to_fingerprint_database md5_16 serialize env db file a).ret = none ∧
      (dbFind db (md5_16 a.fingerprint) = none →
        dbFind (add_to_fingerprint_database md5_16 serialize env db file a).db
            (md5_16 a.fingerprint)
          = some ⟨a.fingerprint, a.filename, a.now, [locationOf a], 1⟩) ∧
      (∀ rec : FingerprintRecord, dbFind db (md5_16 a.fingerprint) = some rec →
        dbFind (add_to_fingerprint_database md5_16 serialize env db file a).db
            (md5_16 a.fingerprint)
          = some { rec with locations := rec.locations ++ [locationOf a],
                            count := rec.count + 1 }) ∧
      (∀ k : String, k ≠ md5_16 a.fingerprint →
        dbFind (add_to_fingerprint_database md5_16 serialize env db file a).db k
          = dbFind db k) ∧
      (env.makedirsOk = true → env.openOk = true → env.dumpOk = true →
        (add_to_fingerprint_database md5_16 serialize env db file a).durable
            = some (serialize
                (add_to_fingerprint_database md5_16 serialize env db file a).db) ∧
        (add_to_fingerprint_database md5_16 serialize env db file a).save_ok
            = true) := by
  intro md5_16 serialize env db file a
  refine ⟨rfl, ?_, ?_, ?_, ?_⟩
  · intro h
    exact add_db_find_self_new md5_16 db a h
  · intro rec h
    exact add_db_find_self_old md5_16 db a rec h
  · intro k hk
    exact add_db_find_other md5_16 db a k hk
  · intro h1 h2 h3
    simp [add_to_fingerprint_database, save_fingerprint_database, h1, h2, h3]

/-- Claim C5 witness: one concrete call on an empty store with every I/O
step succeeding: the new record has count 1 and one location, the store is
serialized to the durable file, and the Python return value is `None`. -/
theorem C5_witness :
    (add_to_fingerprint_database (fun s => s) (fun _ => ("doc"))
        ⟨true, true, true, 0⟩ [] none
        ⟨("aa_bb_cc"), ("f.png"), ("/tmp/f.png"), 10, ("t1")⟩).ret = none ∧
    dbFind (add_to_fingerprint_database (fun s => s) (fun _ => ("doc"))
        ⟨true, true, true, 0⟩ [] none
        ⟨("aa_bb_cc"), ("f.png"), ("/tmp/f.png"), 10, ("t1")⟩).db ("aa_bb_cc")
      = some ⟨("aa_bb_cc"), ("f.png"), ("t1"),
          [⟨("/tmp/f.png"), ("f.png"), ("t1"), 10⟩], 1⟩ ∧
    (add_to_fingerprint_database (fun s => s) (fun _ => ("doc"))
        ⟨true, true, true, 0⟩ [] none
        ⟨("aa_bb_cc"), ("f.png"), ("/tmp/f.png"), 10, ("t1")⟩).durable
      = some ("doc") :=
  ⟨(C5_add_to_fingerprint_database_behaviour (fun s => s) (fun _ => ("doc"))
      ⟨true, true, true, 0⟩ [] none
      ⟨("aa_bb_cc"), ("f.png"), ("/tmp/f.png"), 10, ("t1")⟩).1,
   (C5_add_to_fingerprint_database_behaviour (fun s => s) (fun _ => ("doc"))
      ⟨true, true, true, 0⟩ [] none
      ⟨("aa_bb_cc"), ("f.png"), ("/tmp/f.png"), 10, ("t1")⟩).2.1 rfl,
   ((C5_add_to_fingerprint_database_behaviour (fun s => s) (fun _ => ("doc"))
      ⟨true, true, true, 0⟩ [] none
      ⟨("aa_bb_cc"), ("f.png"), ("/tmp/f.png"), 10, ("t1")⟩).2.2.2.2 rfl rfl rfl).1⟩

/-- Claim C5 counterexample: a concrete call to
`add_to_fingerprint_database` returns `None`, not the computed record ID
`md5_16 fingerprint`: the Python function has no `return` statement, so the
ID is never returned to the caller. -/
theorem C5_counterexample_returns_none :
    (add_to_fingerprint_database (fun s => s) (fun _ => ("doc"))
        ⟨true, true, true, 0⟩ [] none
        ⟨("aa_bb_cc"), ("f.png"), ("/tmp/f.png"), 10, ("t1")⟩).ret = none ∧
    ∀ id : String,
      (add_to_fingerprint_database (fun s => s) (fun _ => ("doc"))
          ⟨true, true, true, 0⟩ [] none
          ⟨("aa_bb_cc"), ("f.png"), ("/tmp/f.png"), 10, ("t1")⟩).ret ≠ some id :=
  ⟨rfl, fun _ h => Option.noConfusion h⟩

/- ------------------------------------------------------------------ -/
/- Claim C10: the count / location-history invariant                   -/
/- ------------------------------------------------------------------ -/

theorem add_db_preserves_counts (md5_16 : String → String) (db : Db)
    (a : AddArgs) (h : ∀ kv ∈ db, kv.2.count = kv.2.locations.length) :
    ∀ kv ∈ add_db md5_16 db a, kv.2.count = kv.2.locations.length := by
  intro kv hkv
  cases hfind : dbFind db (md5_16 a.fingerprint) with
  | some r =>
    simp only [add_db, hfind] at hkv
    rcases mem_dbUpdate _ _ _ _ hkv with hin | ⟨kv', hkv', rfl⟩
    · exact h kv hin
    · simp [h kv' hkv']
  | none =>
    simp only [add_db, hfind] at hkv
    rcases mem_dbUpdate _ _ _ _ hkv with hin | ⟨kv', hkv', rfl⟩
    · rcases List.mem_append.mp hin with hl | hr
      · exact h kv hl
      · rw [List.mem_singleton.mp hr]
        rfl
    · rcases List.mem_append.mp hkv' with hl | hr
      · simp [h kv' hl]
      · rw [List.mem_singleton.mp hr]
        simp

theorem applyAll_preserves_counts (md5_16 : String → String)
    (args : List AddArgs) (db : Db)
    (h : ∀ kv ∈ db, kv.2.count = kv.2.locations.length) :
    ∀ kv ∈ applyAll md5_16 args db, kv.2.count = kv.2.locations.length := by
  induction args generalizing db with
  | nil => exact h
  | cons a rest ih =>
    exact ih (add_db md5_16 db a) (add_db_preserves_counts md5_16 db a h)

/-- Claim C10: starting from an empty in-memory fingerprint database, after
any sequence of `add_to_fingerprint_database` calls every record satisfies
`count = locations.length`: the occurrence counter and the location history
never diverge (a fresh record is created with count 0 and no locations, and
every call then appends exactly one location while incrementing the count by
one). -/
theorem C10_count_matches_locations :
    ∀ (md5_16 : String → String) (args : List AddArgs)
      (kv : String × FingerprintRecord), kv ∈ applyAll md5_16 args [] →
      kv.2.count = kv.2.locations.length := by
  intro md5_16 args kv hkv
  exact applyAll_preserves_counts md5_16 args [] (by simp) kv hkv

/-- Claim C10 witness: ingesting the same fingerprint twice from an empty
store yields the record with count 2 and two location entries. -/
theorem C10_witness :
    ((("aa_bb_cc"),
        (⟨("aa_bb_cc"), ("f.png"), ("t1"),
          [⟨("/a"), ("f.png"), ("t1"), 10⟩, ⟨("/b"), ("f.png"), ("t2"), 11⟩],
          2⟩ : FingerprintRecord)) : String × FingerprintRecord).2.count
      = ((("aa_bb_cc"),
        (⟨("aa_bb_cc"), ("f.png"), ("t1"),
          [⟨("/a"), ("f.png"), ("t1"), 10⟩, ⟨("/b"), ("f.png"), ("t2"), 11⟩],
          2⟩ : FingerprintRecord)) : String × FingerprintRecord).2.locations.length :=
  C10_count_matches_locations (fun s => s)
    [⟨("aa_bb_cc"), ("f.png"), ("/a"), 10, ("t1")⟩,
     ⟨("aa_bb_cc"), ("f.png"), ("/b"), 11, ("t2")⟩] _ (by decide)

/-- Claim C2: in `load_image_from_path` the store is queried before the new
observation is registered.  First part: every match returned by an ingest
refers to a record that already existed in the store before the call, so the
record created (or updated) by that same ingest is never in its own match
list; in particular an ingest of brand-new content (its ID not yet in the
store) never lists its own record.  Second part, the concrete scenario: from
an empty store, the first ingest returns an empty match list, and a second
ingest of the same fingerprint returns the record created by the first
ingest as its only match with similarity exactly 100 (that record showing
count 1 and one location), after which the record holds count 2 and two
location entries. -/
theorem C2_query_precedes_registration :
    (∀ (md5_16 : String → String) (serialize : Db → String) (env : SaveEnv)
        (db : Db) (file : Option String) (a : AddArgs),
      ∀ m ∈ (load_image_from_path md5_16 serialize env db file a).similar_images,
        (dbFind db m.id).isSome = true ∧
        (dbFind db (md5_16 a.fingerprint) = none →
          m.id ≠ md5_16 a.fingerprint)) ∧
    (∀ (md5_16 : String → String) (serialize : Db → String) (env env2 : SaveEnv)
        (file : Option String) (a b : AddArgs),
      b.fingerprint = a.fingerprint →
      (∀ p ∈ splitParts a.fingerprint.toList, p ≠ []) →
      (load_image_from_path md5_16 serialize env [] file a).similar_images = [] ∧
      (load_image_from_path md5_16 serialize env2
          (load_image_from_path md5_16 serialize env [] file a).db
          (load_image_from_path md5_16 serialize env [] file a).durable
          b).similar_images
        = [⟨md5_16 a.fingerprint, 100,
            ⟨a.fingerprint, a.filename, a.now, [locationOf a], 1⟩⟩] ∧
      dbFind (load_image_from_path md5_16 serialize env2
          (load_image_from_path md5_16 serialize env [] file a).db
          (load_image_from_path md5_16 serialize env [] file a).durable b).db
          (md5_16 a.fingerprint)
        = some ⟨a.fingerprint, a.filename, a.now,
            [locationOf a, locationOf b], 2⟩) := by
  constructor
  · intro md5_16 serialize env db file a m hm
    have hm' : m ∈ find_similar_images db a.fingerprint 90 := hm
    have hc : m ∈ candidate_matches db a.fingerprint 90 :=
      (mem_sortDescBySim m _).mp hm'
    obtain ⟨kv, hkv, heq, _⟩ := mem_candidate_matches db a.fingerprint 90 m hc
    have hsome : (dbFind db m.id).isSome := by
      rw [heq]
      exact dbFind_isSome_of_mem db kv hkv
    refine ⟨hsome, fun hnone hid => ?_⟩
    rw [hid, hnone] at hsome
    exact Bool.noConfusion hsome
  · intro md5_16 serialize env env2 file a b hfp hparts
    have hid : md5_16 b.fingerprint = md5_16 a.fingerprint := by rw [hfp]
    have hdb1 : (load_image_from_path md5_16 serialize env [] file a).db
        = [(md5_16 a.fingerprint,
            ⟨a.fingerprint, a.filename, a.now, [locationOf a], 1⟩)] := by
      show add_db md5_16 [] a = _
      simp [add_db, dbFind, dbUpdate]
    have hsim : calculate_fingerprint_similarity b.fingerprint a.fingerprint
        = 100 := by
      rw [hfp]
      exact calculate_fingerprint_similarity_self a.fingerprint hparts
    refine ⟨rfl, ?_, ?_⟩
    · show find_similar_images
          (load_image_from_path md5_16 serialize env [] file a).db
          b.fingerprint 90 = _
      rw [hdb1]
      simp only [find_similar_images, candidate_matches, List.filterMap, hsim]
      norm_num [sortDescBySim, insertDescBySim]
    · show dbFind
          (add_db md5_16 (load_image_from_path md5_16 serialize env [] file a).db
            b) (md5_16 a.fingerprint) = _
      rw [hdb1]
      have hfound : dbFind [(md5_16 a.fingerprint,
          (⟨a.fingerprint, a.filename, a.now, [locationOf a], 1⟩ :
            FingerprintRecord))] (md5_16 b.fingerprint)
          = some ⟨a.fingerprint, a.filename, a.now, [locationOf a], 1⟩ := by
        rw [hid]
        simp [dbFind]
      have := add_db_find_self_old md5_16 _ b _ hfound
      rw [hid] at this
      rw [this]
      simp

/-- Claim C2 witness: the two-ingest scenario run on concrete data — the
fingerprint `aa_bb_cc` ingested twice from the empty store. -/
theorem C2_witness :
    (load_image_from_path (fun s => s) (fun _ => ("d")) ⟨true, true, true, 0⟩
        [] none ⟨("aa_bb_cc"), ("f.png"), ("/a"), 10, ("t1")⟩).similar_images
      = [] ∧
    (load_image_from_path (fun s => s) (fun _ => ("d")) ⟨true, true, true, 0⟩
        (load_image_from_path (fun s => s) (fun _ => ("d")) ⟨true, true, true, 0⟩
          [] none ⟨("aa_bb_cc"), ("f.png"), ("/a"), 10, ("t1")⟩).db
        (load_image_from_path (fun s => s) (fun _ => ("d")) ⟨true, true, true, 0⟩
          [] none ⟨("aa_bb_cc"), ("f.png"), ("/a"), 10, ("t1")⟩).durable
        ⟨("aa_bb_cc"), ("f.png"), ("/b"), 11, ("t2")⟩).similar_images
      = [⟨("aa_bb_cc"), 100,
          ⟨("aa_bb_cc"), ("f.png"), ("t1"),
            [⟨("/a"), ("f.png"), ("t1"), 10⟩], 1⟩⟩] ∧
    dbFind (load_image_from_path (fun s => s) (fun _ => ("d"))
        ⟨true, true, true, 0⟩
        (load_image_from_path (fun s => s) (fun _ => ("d")) ⟨true, true, true, 0⟩
          [] none ⟨("aa_bb_cc"), ("f.png"), ("/a"), 10, ("t1")⟩).db
        (load_image_from_path (fun s => s) (fun _ => ("d")) ⟨true, true, true, 0⟩
          [] none ⟨("aa_bb_cc"), ("f.png"), ("/a"), 10, ("t1")⟩).durable
        ⟨("aa_bb_cc"), ("f.png"), ("/b"), 11, ("t2")⟩).db ("aa_bb_cc")
      = some ⟨("aa_bb_cc"), ("f.png"), ("t1"),
          [⟨("/a"), ("f.png"), ("t1"), 10⟩, ⟨("/b"), ("f.png"), ("t2"), 11⟩],
          2⟩ :=
  C2_query_precedes_registration.2 (fun s => s) (fun _ => ("d"))
    ⟨true, true, true, 0⟩ ⟨true, true, true, 0⟩ none
    ⟨("aa_bb_cc"), ("f.png"), ("/a"), 10, ("t1")⟩
    ⟨("aa_bb_cc"), ("f.png"), ("/b"), 11, ("t2")⟩ rfl (by decide)

/-- Claim C3 (amended): every failing `save_fingerprint_database` call
returns `False` without raising (the call succeeds exactly when all three
I/O steps do), and a failure in `os.makedirs` or in `open` leaves the
previously-persisted durable content untouched; but the code opens the real
storage path in truncating write mode before the new content is written, so
a failure during `json.dump` leaves the storage path holding only the
partial prefix that was written — the previously-persisted content is NOT
preserved in that case. -/
theorem C3_persist_failure_behaviour :
    ∀ (env : SaveEnv) (file : Option String) (serialized : String),
      ((save_fingerprint_database env file serialized).1 = true ↔
        (env.makedirsOk = true ∧ env.openOk = true ∧ env.dumpOk = true)) ∧
      (env.makedirsOk = false ∨ env.openOk = false →
        (save_fingerprint_database env file serialized).2 = file) ∧
      (env.makedirsOk = true → env.openOk = true → env.dumpOk = false →
        (save_fingerprint_database env file serialized).2
          = some (String.mk (serialized.toList.take env.bytesBeforeFail))) ∧
      (env.makedirsOk = true → env.openOk = true → env.dumpOk = true →
        (save_fingerprint_database env file serialized).2 = some serialized) := by
  intro env file serialized
  obtain ⟨m, o, d, n⟩ := env
  refine ⟨?_, ?_, ?_, ?_⟩
  · cases m <;> cases o <;> cases d <;>
      simp [save_fingerprint_database]
  · intro h
    rcases h with h | h
    · subst h
      simp [save_fingerprint_database]
    · subst h
      cases m <;> simp [save_fingerprint_database]
  · intro hm ho hd
    subst hm; subst ho; subst hd
    simp [save_fingerprint_database]
  · intro hm ho hd
    subst hm; subst ho; subst hd
    simp [save_fingerprint_database]

/-- Claim C3 witness: a failure before `open` (here: `os.makedirs` raising)
returns `False` and preserves the old durable content; a fully successful
call writes the new serialization. -/
theorem C3_witness :
    (save_fingerprint_database ⟨false, true, true, 0⟩ (some ("OLD"))
        ("NEWDATA")).2 = some ("OLD") ∧
    (save_fingerprint_database ⟨true, true, true, 0⟩ (some ("OLD"))
        ("NEWDATA")).1 = true ∧
    (save_fingerprint_database ⟨true, true, true, 0⟩ (some ("OLD"))
        ("NEWDATA")).2 = some ("NEWDATA") :=
  ⟨(C3_persist_failure_behaviour ⟨false, true, true, 0⟩ (some ("OLD"))
      ("NEWDATA")).2.1 (Or.inl rfl),
   ((C3_persist_failure_behaviour ⟨true, true, true, 0⟩ (some ("OLD"))
      ("NEWDATA")).1).mpr ⟨rfl, rfl, rfl⟩,
   (C3_persist_failure_behaviour ⟨true, true, true, 0⟩ (some ("OLD"))
      ("NEWDATA")).2.2.2 rfl rfl rfl⟩

/-- Claim C3 counterexample: with previously-persisted content `OLD`, a
`json.dump` failure that wrote 0 bytes (e.g. disk full immediately after
`open(storage_file, 'w')` truncated the file) returns `False` but leaves
the storage path empty: the durable content is no longer `OLD` — the real
storage path was truncated before the new content was fully written. -/
theorem C3_counterexample_truncated_on_dump_failure :
    save_fingerprint_database ⟨true, true, false, 0⟩ (some ("OLD")) ("NEWDATA")
      = (false, some ("")) ∧
    (some (("") : String) ≠ some ("OLD")) := by
  refine ⟨rfl, by decide⟩

theorem splitParts_no_sep (xs : List Char) (h : ∀ c ∈ xs, c ≠ '_') :
    splitParts xs = [xs] := by
  induction xs with
  | nil => rfl
  | cons c rest ih =>
    have hc : c ≠ '_' := h c (List.mem_cons_self _ _)
    have ih' := ih fun d hd => h d (List.mem_cons_of_mem _ hd)
    simp only [splitParts, if_neg hc, ih']

theorem splitParts_append_sep (xs ys : List Char) (h : ∀ c ∈ xs, c ≠ '_') :
    splitParts (xs ++ '_' :: ys) = xs :: splitParts ys := by
  induction xs with
  | nil => simp [splitParts]
  | cons c rest ih =>
    have hc : c ≠ '_' := h c (List.mem_cons_self _ _)
    have ih' := ih fun d hd => h d (List.mem_cons_of_mem _ hd)
    simp only [List.cons_append, splitParts, if_neg hc, List.append_eq, ih']

/-- Claim C4 (amended): when the pixel buffer cannot be normalized (empty or
non-rectangular), `generate_perceptual_hash` catches the exception, prints
it, and returns the sentinel `None` instead of a fingerprint — the error
does not propagate to the caller; on a normalizable buffer it returns the
composite `ahash_phash_dhash` string, which splits into exactly the three
component hashes whenever the external hash texts contain no underscore. -/
theorem C4_generate_error_absorbed_to_none :
    ∀ (ahash phash dhash : PixelBuffer → String) (buf : PixelBuffer),
      (bufferNormalizable buf = false →
        generate_perceptual_hash ahash phash dhash buf = none) ∧
      (bufferNormalizable buf = true →
        generate_perceptual_hash ahash phash dhash buf
          = some (ahash buf ++ ("_") ++ phash buf ++ ("_") ++ dhash buf) ∧
        ((∀ c ∈ (ahash buf).toList, c ≠ '_') →
         (∀ c ∈ (phash buf).toList, c ≠ '_') →
         (∀ c ∈ (dhash buf).toList, c ≠ '_') →
          splitParts
              (ahash buf ++ ("_") ++ phash buf ++ ("_") ++ dhash buf).toList
            = [(ahash buf).toList, (phash buf).toList, (dhash buf).toList])) := by
  intro ahash phash dhash buf
  constructor
  · intro h
    simp [generate_perceptual_hash, h]
  · intro h
    refine ⟨by simp [generate_perceptual_hash, h], ?_⟩
    intro ha hp hd
    have hlist : (ahash buf ++ ("_") ++ phash buf ++ ("_") ++ dhash buf).toList
        = (ahash buf).toList ++ '_' ::
            ((phash buf).toList ++ '_' :: (dhash buf).toList) := by
      simp [String.toList, String.data_append]
    rw [hlist, splitParts_append_sep _ _ ha, splitParts_append_sep _ _ hp,
      splitParts_no_sep _ hd]

/-- Claim C4 counterexample: for the empty pixel buffer — the spec's own
example of an unnormalizable input — `generate_perceptual_hash` does not
raise an `UnsupportedBufferError` that propagates to the caller: the
exception from `Image.fromarray` is caught inside the function, which then
returns the non-Fingerprint sentinel `None`. -/
theorem C4_counterexample_empty_buffer_returns_none :
    generate_perceptual_hash (fun _ => ("aaaa")) (fun _ => ("bbbb"))
        (fun _ => ("cccc")) ⟨[]⟩ = none ∧
    bufferNormalizable ⟨[]⟩ = false := ⟨rfl, rfl⟩

/-- Claim C4 witness: a concrete 1×2 buffer is normalizable and produces the
three-component composite fingerprint `aaaa_bbbb_cccc`, which splits back
into the three hash components. -/
theorem C4_witness :
    generate_perceptual_hash (fun _ => ("aaaa")) (fun _ => ("bbbb"))
        (fun _ => ("cccc")) ⟨[[7, 9]]⟩ = some ("aaaa_bbbb_cccc") ∧
    splitParts ("aaaa_bbbb_cccc").toList
      = [("aaaa").toList, ("bbbb").toList, ("cccc").toList] :=
  ⟨((C4_generate_error_absorbed_to_none (fun _ => ("aaaa")) (fun _ => ("bbbb"))
      (fun _ => ("cccc")) ⟨[[7, 9]]⟩).2 rfl).1,
   ((C4_generate_error_absorbed_to_none (fun _ => ("aaaa")) (fun _ => ("bbbb"))
      (fun _ => ("cccc")) ⟨[[7, 9]]⟩).2 rfl).2
      (by decide) (by decide) (by decide)⟩

/-- Claim C6: when the durable resource holds unparsable content,
`load_fingerprint_database` never raises: it always yields an empty
in-memory store; when the rename succeeds the corrupt content is moved
aside to the backup path `storage_file + '.backup'` (a fixed suffix) and the
original path is cleared, and when the rename itself fails the failure is
swallowed and the load still completes with an empty store, the filesystem
left unchanged. -/
theorem C6_load_corruption_recovery :
    ∀ (fs : FileSystem) (storage_file raw : String) (renameOk : Bool),
      fs storage_file = some (StoredContent.junk raw) →
      (load_fingerprint_database fs storage_file renameOk).1 = [] ∧
      (renameOk = true →
        (load_fingerprint_database fs storage_file renameOk).2
            (storage_file ++ (".backup")) = some (StoredContent.junk raw) ∧
        (load_fingerprint_database fs storage_file renameOk).2 storage_file
          = none) ∧
      (renameOk = false →
        (load_fingerprint_database fs storage_file renameOk).2 = fs) := by
  intro fs storage_file raw renameOk h
  have hneq : storage_file ≠ storage_file ++ (".backup") := by
    intro hcontra
    have := congrArg String.length hcontra
    rw [String.length_append] at this
    have h7 : ((".backup") : String).length = 7 := rfl
    omega
  cases renameOk with
  | false =>
    refine ⟨?_, ?_, ?_⟩
    · simp [load_fingerprint_database, h]
    · intro hk
      exact Bool.noConfusion hk
    · intro _
      simp [load_fingerprint_database, h]
  | true =>
    refine ⟨?_, ?_, ?_⟩
    · simp [load_fingerprint_database, h]
    · intro _
      constructor
      · simp [load_fingerprint_database, h]
      · simp [load_fingerprint_database, h, hneq]
    · intro hk
      exact Bool.noConfusion hk

/-- Claim C6 witness: a one-file filesystem whose `db.json` holds unparsable
content: the load yields the empty store, and with the rename succeeding the
junk ends up at `db.json.backup` while `db.json` is cleared. -/
theorem C6_witness :
    (load_fingerprint_database
        (fun q => if q = ("db.json") then some (StoredContent.junk ("corrupt"))
                  else none) ("db.json") true).1 = [] ∧
    (load_fingerprint_database
        (fun q => if q = ("db.json") then some (StoredContent.junk ("corrupt"))
                  else none) ("db.json") true).2 (("db.json") ++ (".backup"))
      = some (StoredContent.junk ("corrupt")) ∧
    (load_fingerprint_database
        (fun q => if q = ("db.json") then some (StoredContent.junk ("corrupt"))
                  else none) ("db.json") true).2 ("db.json") = none := by
  have h := C6_load_corruption_recovery
    (fun q => if q = ("db.json") then some (StoredContent.junk ("corrupt"))
              else none) ("db.json") ("corrupt") true (by simp)
  exact ⟨h.1, (h.2.1 rfl).1, (h.2.1 rfl).2⟩
